import Mathlib

set_option maxHeartbeats 1000000

/-!
Verification model of the `beiwetools` repository: configuration
normalization (`beiwetools.configread`) and raw-data registries
(`beiwetools.manage`).  The Python implementation modules are not part of
the available sources (only the package README and the two example
notebooks are); every operation below is therefore modelled from the
specification, as indicated in its doc comment.
-/

/-- Modelled from the spec: a primitive scalar value appearing in a Beiwe
configuration document (the `configread` implementation module is missing
from the sources). -/
inductive SettingValue where
  | int (n : Int)
  | bool (b : Bool)
  | str (s : String)
deriving DecidableEq

/-- Modelled from the spec: a canonical attribute value is either present,
or carries the explicit "checked, missing" sentinel (spec section 4.2:
unresolved attributes receive the explicit "not found" sentinel, never
null/absence). -/
inductive Resolved where
  | found (v : SettingValue)
  | notFound
deriving DecidableEq

/-- Modelled from the spec: the three known configuration-file format
variants (spec section 4.1). -/
inductive Format where
  | legacy
  | v1
  | v2
deriving DecidableEq

/-- Ordered association-list lookup (configuration documents are
order-preserving maps). -/
def alookup {α : Type} (k : String) : List (String × α) → Option α
  | [] => none
  | kv :: rest => if kv.1 = k then some kv.2 else alookup k rest

/-- Modelled from the spec: raw representation of one question object in a
tracking survey of a configuration document. -/
structure QuestionDoc where
  qId : String
  qType : String
  text : String
  answers : List String
  logic : Option String
deriving DecidableEq

/-- Modelled from the spec: raw representation of one survey object in a
configuration document.  Legacy documents identify the object with the
`_id` key only; current documents carry an integer `id` and a hex
`object_id`, plus a `deleted` flag. -/
structure SurveyDoc where
  mongoId : Option String
  internalId : Option Int
  objectId : Option String
  deleted : Option Bool
  surveyType : String
  timings : List (List Nat)
  settings : List (String × SettingValue)
  questions : List QuestionDoc
deriving DecidableEq

/-- Modelled from the spec: raw representation of one deserialized
configuration document. -/
structure StudyDoc where
  studyMongoId : Option String
  studyObjectId : Option String
  deviceSettings : List (String × SettingValue)
  surveys : List SurveyDoc
deriving DecidableEq

/-- Modelled from the spec (SchemaCatalog): canonical attributes for
overall app behavior. -/
def appAttrs : List String :=
  ["allow_upload_over_cellular_data", "call_clinician_button_enabled",
   "call_research_assistant_button_enabled",
   "create_new_data_files_frequency_seconds", "seconds_before_auto_logout",
   "upload_data_files_frequency_seconds", "use_anonymized_hashing",
   "use_gps_fuzzing"]

/-- Modelled from the spec (SchemaCatalog): canonical survey-wide
attributes. -/
def surveyWideAttrs : List String :=
  ["check_for_new_surveys_frequency_seconds",
   "voice_recording_max_time_length_seconds"]

/-- Modelled from the spec (SchemaCatalog): canonical passive-sensor
attributes. -/
def passiveAttrs : List String :=
  ["accelerometer", "accelerometer_off_duration_seconds",
   "accelerometer_on_duration_seconds", "bluetooth",
   "bluetooth_global_offset_seconds", "bluetooth_on_duration_seconds",
   "bluetooth_total_duration_seconds", "calls", "devicemotion",
   "devicemotion_off_duration_seconds", "devicemotion_on_duration_seconds",
   "gps", "gps_off_duration_seconds", "gps_on_duration_seconds", "gyro",
   "gyro_off_duration_seconds", "gyro_on_duration_seconds", "magnetometer",
   "magnetometer_off_duration_seconds", "magnetometer_on_duration_seconds",
   "power_state", "proximity", "reachability", "texts", "wifi",
   "wifi_log_frequency_seconds"]

/-- Modelled from the spec (SchemaCatalog): canonical display-text
attributes. -/
def displayAttrs : List String :=
  ["about_page_text", "consent_form_text",
   "survey_submit_success_toast_text"]

/-- Modelled from the spec (SchemaCatalog): canonical audio-survey
attributes. -/
def audioAttrs : List String :=
  ["audio_survey_type", "bit_rate", "sample_rate",
   "trigger_on_first_download"]

/-- Modelled from the spec (SchemaCatalog): canonical tracking-survey
attributes. -/
def trackingAttrs : List String :=
  ["number_of_random_questions", "randomize", "randomize_with_memory",
   "trigger_on_first_download"]

/-- All documented device-settings keys of the SchemaCatalog. -/
def documentedKeys : List String :=
  appAttrs ++ surveyWideAttrs ++ passiveAttrs ++ displayAttrs

/-- Modelled from the spec: the three version-2-only device-setting keys
used as CurrentV2 markers (spec section 4.1, README version notes). -/
def v2MarkerKeys : List String :=
  ["call_clinician_button_enabled",
   "call_research_assistant_button_enabled", "use_gps_fuzzing"]

/-- A device-settings key is present in the document. -/
def hasKey (ds : List (String × SettingValue)) (k : String) : Bool :=
  (alookup k ds).isSome

/-- Modelled from the spec (FormatDetector, section 4.1): presence of the
three V2-only device-setting keys means CurrentV2; a hex object identifier
paired with a deletion flag on a survey object means CurrentV1; a bare
internal identifier without a paired hex object identifier means
LegacyExtendedJSON.  The implementation module is missing from the
sources. -/
def detectFormat (doc : StudyDoc) : Format :=
  if v2MarkerKeys.all (hasKey doc.deviceSettings) then .v2
  else if doc.surveys.any (fun s => s.objectId.isSome && s.deleted.isSome)
    then .v1
  else .legacy

/-- Modelled from the spec: the stable identifier of a survey object,
preferring the hex object identifier over the internal numeric/Mongo
identifier when both exist (spec section 3, README "Identifiers"). -/
def surveyIdOf (s : SurveyDoc) : String :=
  match s.objectId with
  | some h => h
  | none =>
    match s.mongoId with
    | some m => m
    | none =>
      match s.internalId with
      | some n => toString n
      | none => ""

/-- Modelled from the spec: the stable identifier of the study object,
preferring the hex object identifier over the Mongo identifier. -/
def studyIdOf (doc : StudyDoc) : String :=
  match doc.studyObjectId with
  | some h => h
  | none => (doc.studyMongoId).getD ""

/-- Resolve a list of canonical attributes against the document's
key/value pairs; unresolved attributes receive the explicit sentinel. -/
def resolveSettings (attrs : List String)
    (src : List (String × SettingValue)) : List (String × Resolved) :=
  attrs.map (fun k =>
    (k, match alookup k src with
        | some v => Resolved.found v
        | none => Resolved.notFound))

/-- Canonical question model (spec section 3). -/
structure Question where
  identifier : String
  qType : String
  text : String
  answers : List String
  logic : Option String
deriving DecidableEq

/-- Scores are the zero-based positions of the answer choices. -/
def Question.scores (q : Question) : List Nat :=
  List.range q.answers.length

/-- Survey variants (spec section 3). -/
inductive SurveyVariant where
  | audio
  | tracking
  | generic
deriving DecidableEq

/-- Canonical survey model (spec section 3). -/
structure Survey where
  identifier : String
  variant : SurveyVariant
  surveyType : String
  deleted : Resolved
  timings : List (List Nat)
  settings : List (String × Resolved)
  questions : List Question
deriving DecidableEq

/-- Canonical study model (spec section 3). -/
structure Study where
  identifier : String
  format : Format
  appSettings : List (String × Resolved)
  surveySettings : List (String × Resolved)
  passiveSettings : List (String × Resolved)
  displaySettings : List (String × Resolved)
  surveys : List Survey
  warnings : List String
deriving DecidableEq

/-- A declared survey type is mapped onto a variant; unrecognized types
are represented with the generic variant. -/
def classifyVariant (t : String) : SurveyVariant :=
  if t = "audio_survey" then .audio
  else if t = "tracking_survey" then .tracking
  else .generic

/-- Canonical survey attributes probed for each variant. -/
def variantAttrs : SurveyVariant → List String
  | .audio => audioAttrs
  | .tracking => trackingAttrs
  | .generic => []

def normalizeQuestion (q : QuestionDoc) : Question :=
  { identifier := q.qId, qType := q.qType, text := q.text,
    answers := q.answers, logic := q.logic }

/-- Modelled from the spec (ConfigNormalizer, section 4.2): build the
canonical survey from a raw survey object; the deletion flag is read
opportunistically if present. -/
def normalizeSurvey (s : SurveyDoc) : Survey :=
  let v := classifyVariant s.surveyType
  { identifier := surveyIdOf s, variant := v, surveyType := s.surveyType,
    deleted := match s.deleted with
               | some b => .found (.bool b)
               | none => .notFound,
    timings := s.timings,
    settings := resolveSettings (variantAttrs v) s.settings,
    questions := s.questions.map normalizeQuestion }

/-- An unrecognized survey type is recorded as a warning but does not
abort normalization. -/
def surveyWarnings (s : SurveyDoc) : List String :=
  if classifyVariant s.surveyType = .generic then
    ["unknown survey type: " ++ s.surveyType]
  else []

/-- Keys present in the document but not claimed by a canonical attribute
are recorded as warnings. -/
def unknownSettingWarnings (doc : StudyDoc) : List String :=
  (doc.deviceSettings.filter
    (fun kv => !(documentedKeys.contains kv.1))).map
      (fun kv => "unknown setting: " ++ kv.1)

/-- Modelled from the spec (ConfigNormalizer, section 4.2): build the
canonical Study model from one raw document, resolving every canonical
attribute of the SchemaCatalog and accumulating warnings; the
`configread` implementation module is missing from the sources. -/
def normalizeDoc (doc : StudyDoc) : Study :=
  { identifier := studyIdOf doc,
    format := detectFormat doc,
    appSettings := resolveSettings appAttrs doc.deviceSettings,
    surveySettings := resolveSettings surveyWideAttrs doc.deviceSettings,
    passiveSettings := resolveSettings passiveAttrs doc.deviceSettings,
    displaySettings := resolveSettings displayAttrs doc.deviceSettings,
    surveys := doc.surveys.map normalizeSurvey,
    warnings := unknownSettingWarnings doc
                  ++ (doc.surveys.map surveyWarnings).flatten }

/-- The canonical projection of a Study used by semantic equality:
canonical attribute values and the survey collection (with identifiers),
dropping the source format variant and raw-document artifacts such as the
warning log (spec sections 4.2 and 9). -/
structure CanonStudy where
  identifier : String
  appSettings : List (String × Resolved)
  surveySettings : List (String × Resolved)
  passiveSettings : List (String × Resolved)
  displaySettings : List (String × Resolved)
  surveys : List Survey
deriving DecidableEq

/-- Project a Study to its canonical comparison view. -/
def canonView (s : Study) : CanonStudy :=
  { identifier := s.identifier, appSettings := s.appSettings,
    surveySettings := s.surveySettings,
    passiveSettings := s.passiveSettings,
    displaySettings := s.displaySettings, surveys := s.surveys }

/-- Modelled from the spec (section 4.2): semantic equality between two
Study instances compares canonical attribute values and identifier sets,
ignoring source format and raw-document artifacts. -/
def studyEq (s t : Study) : Bool :=
  decide (canonView s = canonView t)

/-- Characters after the last path separator (`acc` holds the current
component, reversed). -/
def lastComponent : List Char → List Char → List Char
  | [], acc => acc.reverse
  | c :: rest, acc =>
    if c = '/' then lastComponent rest [] else lastComponent rest (c :: acc)

/-- Strip a trailing `.json` extension from a character list. -/
def stripJsonExt (cs : List Char) : List Char :=
  match cs.reverse with
  | 'n' :: 'o' :: 's' :: 'j' :: '.' :: rest => rest.reverse
  | _ => cs

/-- Modelled from the spec: the base name of a configuration source path,
used as the study's default display name (directory components and the
`.json` extension are dropped). -/
def baseName (path : String) : String :=
  String.mk (stripJsonExt (lastComponent path.toList []))

/-- Default survey names are deterministic functions of document order:
`Survey <n>`, one-based (spec section 3). -/
def surveyDefaultName (i : Nat) : String :=
  "Survey " ++ toString (i + 1)

/-- Default question names are scoped per survey:
`Survey <n> - Question <m>` (spec section 3). -/
def questionDefaultName (i j : Nat) : String :=
  surveyDefaultName i ++ " - Question " ++ toString (j + 1)

/-- Default name entries of the questions of the `i`-th survey, starting
at question position `j` (names are scoped per survey). -/
def questionAssignments (i : Nat) : Nat → List QuestionDoc →
    List (String × String)
  | _, [] => []
  | j, q :: qs =>
    (q.qId, questionDefaultName i j) :: questionAssignments i (j + 1) qs

/-- Default name entries contributed by the `i`-th survey of the document:
the survey itself followed by its questions in document order. -/
def surveyAssignments (i : Nat) (s : SurveyDoc) : List (String × String) :=
  (surveyIdOf s, surveyDefaultName i) :: questionAssignments i 0 s.questions

/-- Default name entries of a survey list, numbering surveys from
position `i`. -/
def surveysAssignments : Nat → List SurveyDoc → List (String × String)
  | _, [] => []
  | i, s :: ss => surveyAssignments i s ++ surveysAssignments (i + 1) ss

/-- Identifiers of the survey and question objects of a survey list, in
document order. -/
def surveysObjectIds : List SurveyDoc → List String
  | [] => []
  | s :: ss =>
    (surveyIdOf s :: s.questions.map QuestionDoc.qId) ++ surveysObjectIds ss

/-- Identifiers of the survey and question objects of a document, in
document order. -/
def objectIds (doc : StudyDoc) : List String :=
  surveysObjectIds doc.surveys

/-- Modelled from the spec (NameRegistry, section 4.3 and the notebook's
`name_assignments`): the default identifier-to-name mapping of a
configuration; the study object itself receives the first entry, keyed by
its stable identifier and named after the source file's base name,
followed by the survey and question entries in document order. -/
def defaultAssignments (path : String) (doc : StudyDoc) :
    List (String × String) :=
  (studyIdOf doc, baseName path) :: surveysAssignments 0 doc.surveys

/-- Modelled from the spec (NameRegistry, section 4.3): a bidirectional
identifier-to-display-name mapping; names must be unique within one
registry.  The implementation module is missing from the sources. -/
structure NameRegistry where
  assignments : List (String × String)
deriving DecidableEq

/-- The assignments obtained by applying an old-name-to-new-name update
mapping to a registry: every assigned name present in the mapping is
replaced, all other names are kept. -/
def proposedAssignments (r : NameRegistry)
    (m : List (String × String)) : List (String × String) :=
  r.assignments.map (fun kv => (kv.1, (alookup kv.2 m).getD kv.2))

/-- First name that occurs more than once in a list, if any. -/
def firstDup : List String → Option String
  | [] => none
  | x :: rest => if x ∈ rest then some x else firstDup rest

/-- Modelled from the spec (NameRegistry.update, section 4.3): apply an
old-name-to-new-name mapping, all-or-nothing; if the resulting name set
would contain duplicates the call fails with a NameCollision carrying the
specific colliding name, and no registry is produced. -/
def NameRegistry.update (r : NameRegistry) (m : List (String × String)) :
    Except String NameRegistry :=
  let prop := proposedAssignments r m
  match firstDup (prop.map Prod.snd) with
  | some c => .error c
  | none => .ok ⟨prop⟩

/-- The caller-side convention for a failed update: on NameCollision the
registry state is unchanged (all-or-nothing). -/
def applyUpdate (r : NameRegistry) (m : List (String × String)) :
    NameRegistry :=
  match r.update m with
  | .ok r' => r'
  | .error _ => r

/-- Modelled from the spec: in-memory representation of a `BeiweConfig`
object: the source path, the retained deserialized document, and the
current name assignments (the `configread` classes module is missing from
the sources). -/
structure BeiweConfig where
  sourcePath : String
  raw : StudyDoc
  names : NameRegistry
deriving DecidableEq

/-- The canonical Study represented by a configuration. -/
def BeiweConfig.study (c : BeiweConfig) : Study :=
  normalizeDoc c.raw

/-- Reading a configuration file assigns default names. -/
def mkConfig (path : String) (doc : StudyDoc) : BeiweConfig :=
  { sourcePath := path, raw := doc,
    names := ⟨defaultAssignments path doc⟩ }

/-- Renaming study objects on a configuration (the notebook's
`update_names`). -/
def BeiweConfig.rename (c : BeiweConfig) (m : List (String × String)) :
    Except String BeiweConfig :=
  (c.names.update m).map
    (fun r => { sourcePath := c.sourcePath, raw := c.raw, names := r })

/-- Modelled from the spec (section 6): the persisted configuration
record: the pretty-printed original document (pretty-printing does not
alter the deserialized document tree), the current name-assignment
mapping, and the list of source paths. -/
structure ConfigRecord where
  rawDoc : StudyDoc
  savedNames : List (String × String)
  paths : List String
deriving DecidableEq

/-- Modelled from the spec (BeiweConfig.export): persist a configuration
as a self-contained record. -/
def exportConfig (c : BeiweConfig) : ConfigRecord :=
  { rawDoc := c.raw, savedNames := c.names.assignments,
    paths := [c.sourcePath] }

/-- Modelled from the spec (section 4.3): loading accepts any previously
exported mapping keyed by stable identifier: defaults are assigned and
then overridden by the saved name of each identifier; unknown identifiers
in the loaded mapping are ignored, not errors. -/
def loadNames (path : String) (doc : StudyDoc)
    (saved : List (String × String)) : NameRegistry :=
  ⟨(defaultAssignments path doc).map
    (fun kv => (kv.1, (alookup kv.1 saved).getD kv.2))⟩

/-- Reconstruct a configuration from a record found at source path `p`
(re-normalizes the retained document and reloads the saved names). -/
def loadConfigAt (p : String) (r : ConfigRecord) : BeiweConfig :=
  { sourcePath := p, raw := r.rawDoc,
    names := loadNames p r.rawDoc r.savedNames }

/-- Modelled from the spec (BeiweConfig reload): reconstruct a
configuration from a persisted record. -/
def loadConfig (r : ConfigRecord) : BeiweConfig :=
  loadConfigAt ((r.paths.head?).getD "") r

/-- The name assignments of a configuration are keyed by exactly the
identifiers of its document, in document order, and those identifiers are
distinct.  Holds for every configuration produced by `mkConfig` and is
preserved by renaming. -/
def keysMatch (c : BeiweConfig) : Bool :=
  decide (c.names.assignments.map Prod.fst
          = (defaultAssignments c.sourcePath c.raw).map Prod.fst)
  && decide (((defaultAssignments c.sourcePath c.raw).map Prod.fst).Nodup)

/-- Demonstration question document used by concrete witnesses. -/
def demoQuestionDoc : QuestionDoc :=
  { qId := "q-001", qType := "radio_button",
    text := "How many people did you talk to today?",
    answers := ["None", "One or two"], logic := none }

/-- Demonstration audio survey document (legacy format). -/
def demoSurveyDocA : SurveyDoc :=
  { mongoId := some "55db4c05", internalId := none, objectId := none,
    deleted := none, surveyType := "audio_survey",
    timings := [[], [37800], [], [], [], [], []],
    settings := [("audio_survey_type", .str "compressed")],
    questions := [] }

/-- Demonstration tracking survey document (legacy format). -/
def demoSurveyDocT : SurveyDoc :=
  { mongoId := some "575f0ee8", internalId := none, objectId := none,
    deleted := none, surveyType := "tracking_survey",
    timings := [[], [], [], [32400], [], [], []],
    settings := [("randomize", .bool false)],
    questions := [demoQuestionDoc] }

/-- Demonstration configuration document used by concrete witnesses. -/
def demoStudyDoc : StudyDoc :=
  { studyMongoId := some "55d231c1", studyObjectId := none,
    deviceSettings := [("accelerometer", .bool true), ("gps", .bool true)],
    surveys := [demoSurveyDocA, demoSurveyDocT] }

/-- Demonstration configuration with default names. -/
def demoConfig : BeiweConfig := mkConfig "examples/demo study.json" demoStudyDoc

/-- The demonstration configuration after its names were reassigned. -/
def renamedConfig : BeiweConfig :=
  { demoConfig with
    names := ⟨[("55d231c1", "Generic Study"),
               ("55db4c05", "Sample Audio Survey"),
               ("575f0ee8", "Sample Tracking Survey"),
               ("q-001", "Radio Button Example")]⟩ }

/-- A logical survey, independent of serialization format: it carries
both the hex object identifier (the only identifier in legacy documents,
paired with an internal numeric identifier in current documents) and the
internal numeric identifier. -/
structure LogicalSurvey where
  hexId : String
  numId : Int
  surveyType : String
  timings : List (List Nat)
  deleted : Bool
deriving DecidableEq

/-- Modelled from the spec: encoding of a logical survey in the
MongoDB-extended-JSON legacy format: the object is identified only by the
`_id` attribute, and there is no deletion flag. -/
def legacySurveyDoc (ls : LogicalSurvey) : SurveyDoc :=
  { mongoId := some ls.hexId, internalId := none, objectId := none,
    deleted := none, surveyType := ls.surveyType, timings := ls.timings,
    settings := [], questions := [] }

/-- Modelled from the spec: encoding of a logical survey in the current
formats: the object carries both an integer `id` and a hex `object_id`,
plus a Boolean `deleted` attribute. -/
def currentSurveyDoc (ls : LogicalSurvey) : SurveyDoc :=
  { mongoId := none, internalId := some ls.numId,
    objectId := some ls.hexId, deleted := some ls.deleted,
    surveyType := ls.surveyType, timings := ls.timings,
    settings := [], questions := [] }

/-- A legacy-format document holding one logical survey. -/
def legacyStudyDoc (sid : String) (ls : LogicalSurvey) : StudyDoc :=
  { studyMongoId := some sid, studyObjectId := none,
    deviceSettings := [("accelerometer", .bool true)],
    surveys := [legacySurveyDoc ls] }

/-- A CurrentV1-format document holding the same logical survey. -/
def v1StudyDoc (sid : String) (ls : LogicalSurvey) : StudyDoc :=
  { studyMongoId := none, studyObjectId := some sid,
    deviceSettings := [("accelerometer", .bool true)],
    surveys := [currentSurveyDoc ls] }

/-- A CurrentV2-format document holding the same logical survey: a V1
document extended with the three version-2-only device settings. -/
def v2StudyDoc (sid : String) (ls : LogicalSurvey) : StudyDoc :=
  { studyMongoId := none, studyObjectId := some sid,
    deviceSettings := [("accelerometer", .bool true),
      ("call_clinician_button_enabled", .bool true),
      ("call_research_assistant_button_enabled", .bool false),
      ("use_gps_fuzzing", .bool false)],
    surveys := [currentSurveyDoc ls] }

/-- The survey identifiers of a normalized Study, in document order. -/
def surveyIds (s : Study) : List String :=
  s.surveys.map Survey.identifier

/-- A registry and an update mapping that rename two distinct old names
to the same new name, as in the spec's uniqueness scenario. -/
def collidingRegistry : NameRegistry :=
  ⟨[("id1", "Survey 1"), ("id2", "Survey 2")]⟩

/-- The colliding update mapping of the uniqueness scenario. -/
def collidingUpdate : List (String × String) :=
  [("Survey 1", "Weekly"), ("Survey 2", "Weekly")]

/-- Modelled from the spec: one device record parsed from a user's
`identifiers` stream: observed phone OS, app version, observation
timestamp. -/
structure DeviceRecord where
  os : String
  appVersion : String
  created : String
deriving DecidableEq

/-- One registered raw file observation: stream name, hour bucket, byte
size. -/
structure Obs where
  stream : String
  bucket : String
  bytes : Nat
deriving DecidableEq

/-- A file of a raw-data directory tree: its name, its byte size, and the
device record its content yields when it lies in the `identifiers`
stream. -/
structure FileEntry where
  name : String
  bytes : Nat
  device : Option DeviceRecord := none
deriving DecidableEq

/-- An immediate subdirectory of a user directory with its files. -/
structure StreamDir where
  dirName : String
  files : List FileEntry
deriving DecidableEq

/-- One user's directory in a raw-data root. -/
structure UserDir where
  userId : String
  streams : List StreamDir
deriving DecidableEq

/-- A raw-data root directory: the user directories it holds. -/
abbrev RawRoot := List UserDir

/-- Modelled from the spec (section 4.4): the set of known stream names
(passive-sensor names, identifiers and survey data directories). -/
def knownStreams : List String :=
  ["accelerometer", "app_log", "bluetooth", "calls", "devicemotion",
   "gps", "gyro", "identifiers", "magnetometer", "power_state",
   "proximity", "reachability", "texts", "wifi", "audio_recordings",
   "survey_answers", "survey_timings"]

/-- Modelled from the spec (section 6): a stream file name is parseable
as a UTC hour-bucket timestamp of the form `YYYY-MM-DD HH_MM_SS.csv`;
the parsed bucket is the timestamp part of the name. -/
def parseHourBucket (name : String) : Option String :=
  match name.toList with
  | [y1, y2, y3, y4, '-', m1, m2, '-', d1, d2, ' ',
     h1, h2, '_', n1, n2, '_', s1, s2, '.', 'c', 's', 'v'] =>
    if ([y1, y2, y3, y4, m1, m2, d1, d2, h1, h2, n1, n2, s1, s2].all
          Char.isDigit) then
      some (String.mk [y1, y2, y3, y4, '-', m1, m2, '-', d1, d2, ' ',
        h1, h2, '_', n1, n2, '_', s1, s2])
    else none
  | _ => none

/-- Modelled from the spec (section 3): a per-user registry: device
records, stream file inventory, irregular directory names and
unregistered file names.  Merging is order-insensitive, so the
collections are finite sets; identical hour-bucket observations
de-duplicate, conflicting ones (same stream and bucket, different size)
are both retained. -/
structure UserRegistry where
  userId : String
  devices : Finset DeviceRecord
  obs : Finset Obs
  irregularDirs : Finset String
  unregisteredFiles : Finset String
deriving DecidableEq

/-- Modelled from the spec (sections 3 and 4.5): merging two
UserRegistries for the same user identifier unions their stream
inventories, device records and anomaly sets, de-duplicating identical
hour buckets and retaining both observations of a conflicting bucket. -/
def mergeUser (a b : UserRegistry) : UserRegistry :=
  { userId := a.userId,
    devices := a.devices ∪ b.devices,
    obs := a.obs ∪ b.obs,
    irregularDirs := a.irregularDirs ∪ b.irregularDirs,
    unregisteredFiles := a.unregisteredFiles ∪ b.unregisteredFiles }

/-- Modelled from the spec (sections 3 and 4.5): the project registry:
the scanned users, the per-user raw facts (tagged by user identifier),
the ignored/missing-user flag sets, the attached configurations keyed by
source path, the user-to-configuration assignment, the pooled object
display names and the unnamed-objects flag. -/
structure ProjectRegistry where
  users : Finset String
  ignoredUsers : Finset String
  noRegistry : Finset String
  devices : Finset (String × DeviceRecord)
  obs : Finset (String × Obs)
  irregular : Finset (String × String)
  unregistered : Finset (String × String)
  configurations : List (String × BeiweConfig)
  userConfig : List (String × String)
  objectNames : List (String × String)
  unnamedObjects : Bool
deriving DecidableEq

/-- The empty project registry. -/
def emptyProj : ProjectRegistry :=
  { users := ∅, ignoredUsers := ∅, noRegistry := ∅, devices := ∅,
    obs := ∅, irregular := ∅, unregistered := ∅, configurations := [],
    userConfig := [], objectNames := [], unnamedObjects := false }

/-- Modelled from the spec (section 4.5): merge the scan results of two
sources: registry facts are unioned; configuration state concatenates
(it is empty during scanning and is recomputed on attachment). -/
def mergeProj (a b : ProjectRegistry) : ProjectRegistry :=
  { users := a.users ∪ b.users,
    ignoredUsers := a.ignoredUsers ∪ b.ignoredUsers,
    noRegistry := a.noRegistry ∪ b.noRegistry,
    devices := a.devices ∪ b.devices,
    obs := a.obs ∪ b.obs,
    irregular := a.irregular ∪ b.irregular,
    unregistered := a.unregistered ∪ b.unregistered,
    configurations := a.configurations ++ b.configurations,
    userConfig := a.userConfig ++ b.userConfig,
    objectNames := a.objectNames ++ b.objectNames,
    unnamedObjects := a.unnamedObjects || b.unnamedObjects }

/-- Modelled from the spec (section 4.4): scan one file of a known
stream: a name parseable as an hour bucket becomes a registered
observation (and, in the `identifiers` stream, contributes the device
record); otherwise the file is an unregistered file, counted and
excluded from statistics. -/
def scanFile (u stream : String) (f : FileEntry) : ProjectRegistry :=
  match parseHourBucket f.name with
  | some b =>
    { emptyProj with
      obs := {(u, ⟨stream, b, f.bytes⟩)},
      devices := if stream = "identifiers" then
                   (match f.device with
                    | some d => {(u, d)}
                    | none => ∅)
                 else ∅ }
  | none => { emptyProj with unregistered := {(u, f.name)} }

/-- Modelled from the spec (section 4.4): classify one immediate
subdirectory: unknown names become irregular-directory entries (counted,
not fatal); known streams have their files enumerated. -/
def scanStreamDir (u : String) (sd : StreamDir) : ProjectRegistry :=
  if sd.dirName ∈ knownStreams then
    (sd.files.map (scanFile u sd.dirName)).foldr mergeProj emptyProj
  else { emptyProj with irregular := {(u, sd.dirName)} }

/-- Modelled from the spec (section 4.4): scan one user's directory. -/
def scanUserDir (d : UserDir) : ProjectRegistry :=
  mergeProj { emptyProj with users := {d.userId} }
    ((d.streams.map (scanStreamDir d.userId)).foldr mergeProj emptyProj)

/-- The user selection filter: `none` selects all users. -/
def selected (sel : Option (List String)) (u : String) : Bool :=
  match sel with
  | none => true
  | some l => l.contains u

/-- Modelled from the spec (section 4.5): scan one raw root: every user
directory matching the selection filter is scanned; the others are
recorded as ignored users. -/
def scanRoot (sel : Option (List String)) (root : RawRoot) :
    ProjectRegistry :=
  (root.map (fun d =>
    if selected sel d.userId then scanUserDir d
    else { emptyProj with ignoredUsers := {d.userId} })).foldr
      mergeProj emptyProj

/-- Modelled from the spec (section 4.5): `update_configurations` accepts
either one path, applied to every user, or a mapping from user identifier
to configuration path. -/
inductive ConfigSpec where
  | single (path : String)
  | perUser (assign : List (String × String))

/-- Resolve the configuration argument to a user-to-path assignment. -/
def resolveAssign (cs : ConfigSpec) (P : ProjectRegistry) :
    List (String × String) :=
  match cs with
  | .single p => (P.users.sort (· ≤ ·)).map (fun u => (u, p))
  | .perUser a => a

/-- The distinct configuration paths of an assignment (each distinct path
is normalized exactly once). -/
def distinctPaths (assign : List (String × String)) : List String :=
  (assign.map Prod.snd).dedup

/-- Modelled from the spec: the configuration store: a pure map from
source path to the persisted configuration record found there (local
filesystem reads). -/
abbrev ConfigEnv := String → Option ConfigRecord

/-- Load (normalize) each of the given configuration paths once. -/
def loadConfigsAt (env : ConfigEnv) (paths : List String) :
    List (String × BeiweConfig) :=
  paths.filterMap (fun p => (env p).map (fun r => (p, loadConfigAt p r)))

/-- The pooled identifier-to-name assignments of all attached
configurations. -/
def pooledAssignments (cfgs : List (String × BeiweConfig)) :
    List (String × String) :=
  (cfgs.map (fun pc => pc.2.names.assignments)).flatten

/-- Modelled from the spec (sections 4.3 and 4.5): attach configurations
to a project: each distinct path is normalized exactly once, the
user-to-path assignment is stored, and all display names are re-derived
from the pooled name assignments; when the pooled display names are not
unique the registry declines name-based display (no object names are
assigned) and sets the `unnamed_objects` flag.  Attachment rewrites only
this display state, never the scanned registry facts. -/
def updateConfigurations (env : ConfigEnv) (cs : ConfigSpec)
    (P : ProjectRegistry) : ProjectRegistry :=
  let assign := resolveAssign cs P
  let cfgs := loadConfigsAt env (distinctPaths assign)
  let pooled := pooledAssignments cfgs
  { P with
    configurations := cfgs,
    userConfig := assign,
    objectNames := if (pooled.map Prod.snd).Nodup then pooled else [],
    unnamedObjects := if (pooled.map Prod.snd).Nodup then false
                      else true }

/-- The selected users that are absent from the scan (the `no_registry`
flag). -/
def missingUsers (sel : Option (List String)) (P : ProjectRegistry) :
    Finset String :=
  match sel with
  | none => ∅
  | some l => (l.filter (fun u => decide (u ∉ P.users))).toFinset

/-- Modelled from the spec (BeiweProject.create, section 4.5): scan every
raw root, merging the per-root results, compute the `no_registry` flag
set, and attach the requested configurations. -/
def createProject (env : ConfigEnv) (roots : List RawRoot)
    (sel : Option (List String)) (cs : ConfigSpec) : ProjectRegistry :=
  let base := (roots.map (scanRoot sel)).foldr mergeProj emptyProj
  updateConfigurations env cs
    { base with noRegistry := missingUsers sel base }

/-- The per-user registry derived from the project's tagged facts. -/
def userRegistry (P : ProjectRegistry) (u : String) : UserRegistry :=
  { userId := u,
    devices := (P.devices.filter (fun x => x.1 = u)).image Prod.snd,
    obs := (P.obs.filter (fun x => x.1 = u)).image Prod.snd,
    irregularDirs := (P.irregular.filter (fun x => x.1 = u)).image
      Prod.snd,
    unregisteredFiles := (P.unregistered.filter (fun x => x.1 = u)).image
      Prod.snd }

/-- The distinct OS values among a user's device records. -/
def UserRegistry.osSet (r : UserRegistry) : Finset String :=
  r.devices.image DeviceRecord.os

/-- Modelled from the spec (flag taxonomy, section 4.5): the scan-derived
flags of one user's registry. -/
structure UserFlags where
  withoutData : Bool
  noIdentifiers : Bool
  irregularDirectories : Bool
  multipleDevices : Bool
  unknownOS : Bool
deriving DecidableEq

/-- Compute the scan-derived flags of a user registry. -/
def userFlags (r : UserRegistry) : UserFlags :=
  { withoutData := decide (r.obs = ∅),
    noIdentifiers := decide (r.devices = ∅),
    irregularDirectories := !(decide (r.irregularDirs = ∅)),
    multipleDevices := decide (2 ≤ r.osSet.card),
    unknownOS := !(decide (r.osSet ⊆ ({"iOS", "Android"} : Finset String))) }

/-- The display label of an identifier: its pooled display name when one
is assigned, the stable identifier itself otherwise. -/
def displayLabel (P : ProjectRegistry) (i : String) : String :=
  (alookup i P.objectNames).getD i

/-- The byte sizes observed for one (user, stream, hour-bucket) triple. -/
def sizesAt (P : ProjectRegistry) (u s b : String) : Finset Nat :=
  ((P.obs.filter (fun x => x.1 = u ∧ x.2.stream = s ∧ x.2.bucket = b)).image
    (fun x => x.2.bytes))

/-- Modelled from the spec (section 7, MergeConflict): the flagged
(user, stream, hour-bucket) triples carrying two or more differing byte
sizes; never auto-resolved, all observed sizes are retained in the
registry. -/
def mergeConflicts (P : ProjectRegistry) :
    Finset (String × String × String) :=
  (P.obs.image (fun x => (x.1, x.2.stream, x.2.bucket))).filter
    (fun t => 2 ≤ (sizesAt P t.1 t.2.1 t.2.2).card)

/-- Modelled from the spec (section 6): the persisted project record: one
reloadable record per user plus copies of attached configuration
records and the display state. -/
structure ProjectRecord where
  usersRows : Multiset String
  ignoredRows : Multiset String
  noRegRows : Multiset String
  devicesRows : Multiset (String × DeviceRecord)
  obsRows : Multiset (String × Obs)
  irregularRows : Multiset (String × String)
  unregisteredRows : Multiset (String × String)
  configRecords : List (String × ConfigRecord)
  userConfigL : List (String × String)
  objectNamesL : List (String × String)
  unnamedFlag : Bool

/-- Modelled from the spec (BeiweProject.export): persist a project as a
self-describing record layout (each registry table is written out as its
rows; row order carries no meaning). -/
def exportProject (P : ProjectRegistry) : ProjectRecord :=
  { usersRows := P.users.val,
    ignoredRows := P.ignoredUsers.val,
    noRegRows := P.noRegistry.val,
    devicesRows := P.devices.val,
    obsRows := P.obs.val,
    irregularRows := P.irregular.val,
    unregisteredRows := P.unregistered.val,
    configRecords := P.configurations.map
      (fun pc => (pc.1, exportConfig pc.2)),
    userConfigL := P.userConfig,
    objectNamesL := P.objectNames,
    unnamedFlag := P.unnamedObjects }

/-- Modelled from the spec (BeiweProject.load): reconstruct a project
from a persisted record (per-user registries are re-read, attached
configuration records reloaded). -/
def loadProject (r : ProjectRecord) : ProjectRegistry :=
  { users := r.usersRows.toFinset,
    ignoredUsers := r.ignoredRows.toFinset,
    noRegistry := r.noRegRows.toFinset,
    devices := r.devicesRows.toFinset,
    obs := r.obsRows.toFinset,
    irregular := r.irregularRows.toFinset,
    unregistered := r.unregisteredRows.toFinset,
    configurations := r.configRecords.map
      (fun pr => (pr.1, loadConfig pr.2)),
    userConfig := r.userConfigL,
    objectNames := r.objectNamesL,
    unnamedObjects := r.unnamedFlag }

/-- Modelled from the spec (section 4.5): two ProjectRegistry instances
compare equal iff every per-user registry compares equal (file
inventories, device records, flag sets) and every attached Study
compares equal under semantic Study equality (with its name
assignments). -/
def projEq (P Q : ProjectRegistry) : Bool :=
  decide (P.users = Q.users) && decide (P.ignoredUsers = Q.ignoredUsers)
  && decide (P.noRegistry = Q.noRegistry)
  && decide (P.devices = Q.devices) && decide (P.obs = Q.obs)
  && decide (P.irregular = Q.irregular)
  && decide (P.unregistered = Q.unregistered)
  && decide (P.configurations.map Prod.fst
             = Q.configurations.map Prod.fst)
  && ((P.configurations.zip Q.configurations).all
       (fun pq => studyEq pq.1.2.study pq.2.2.study
         && decide (pq.1.2.names = pq.2.2.names)))
  && decide (P.userConfig = Q.userConfig)
  && decide (P.objectNames = Q.objectNames)
  && decide (P.unnamedObjects = Q.unnamedObjects)

/-- Every attached configuration has its name assignments keyed by its
document's identifiers (holds for every project whose configurations
were attached by `updateConfigurations`). -/
def projWF (P : ProjectRegistry) : Bool :=
  P.configurations.all (fun pc => keysMatch pc.2)

/-- A bare audio survey document with the given Mongo identifier. -/
def bareSurveyDoc (svid : String) : SurveyDoc :=
  { mongoId := some svid, internalId := none, objectId := none,
    deleted := none, surveyType := "audio_survey",
    timings := [], settings := [], questions := [] }

/-- A study document holding exactly one audio survey, used for the
colliding-default-names scenario. -/
def oneSurveyDoc (sid svid : String) : StudyDoc :=
  { studyMongoId := some sid, studyObjectId := none,
    deviceSettings := [],
    surveys := [bareSurveyDoc svid] }

/-- A configuration store holding two unrelated studies whose default
survey names both resolve to `Survey 1`. -/
def collideEnv : ConfigEnv := fun p =>
  if p = "a.json" then
    some ⟨oneSurveyDoc "studyA" "svA", [], ["a.json"]⟩
  else if p = "b.json" then
    some ⟨oneSurveyDoc "studyB" "svB", [], ["b.json"]⟩
  else none

/-- Attach both colliding studies, one per user. -/
def collideSpec : ConfigSpec :=
  .perUser [("u1", "a.json"), ("u2", "b.json")]

/-- A configuration store holding the demonstration study record. -/
def wEnv : ConfigEnv := fun p =>
  if p = "c.json" then some ⟨demoStudyDoc, [], ["c.json"]⟩ else none

/-- A raw root with one user owning an accelerometer stream and an
identifiers stream. -/
def wRoot : RawRoot :=
  [⟨"u1",
    [⟨"accelerometer", [⟨"2016-06-07 18_00_00.csv", 100, none⟩]⟩,
     ⟨"identifiers",
      [⟨"2016-06-07 19_00_00.csv", 294, some ⟨"iOS", "2.0", "146"⟩⟩]⟩]⟩]

/-- A concrete project with raw data and an attached configuration. -/
def wProject : ProjectRegistry :=
  createProject wEnv [wRoot] none (.perUser [("u1", "c.json")])

/-- A project state carrying no attachment state yet (as every scan
result does). -/
def plainCfg (P : ProjectRegistry) : Prop :=
  P.configurations = [] ∧ P.userConfig = [] ∧ P.objectNames = [] ∧
    P.unnamedObjects = false

/-- One user registry of the merge-commutativity witness. -/
def wRegA : UserRegistry :=
  ⟨"u", {⟨"iOS", "2.0", "146"⟩}, ∅, ∅, ∅⟩

/-- The other user registry of the merge-commutativity witness. -/
def wRegB : UserRegistry :=
  ⟨"u", ∅, {⟨"gps", "2016-06-07 18_00_00", 100⟩}, {"bogus_stream"}, ∅⟩

/-- A second raw root, disjoint from `wRoot`. -/
def wRootB : RawRoot :=
  [⟨"u2", [⟨"gps", [⟨"2016-06-08 10_00_00.csv", 55, none⟩]⟩]⟩]

/-- A raw root holding one accelerometer file of the given name and size
for the given user. -/
def accRoot (u f : String) (n : Nat) : RawRoot :=
  [⟨u, [⟨"accelerometer", [⟨f, n, none⟩]⟩]⟩]

theorem studyEq_self (s : Study) : studyEq s s = true := by
  simp [studyEq]

theorem canonView_eq_of_eq {s t : Study} (h : s = t) :
    canonView s = canonView t := by rw [h]

theorem alookup_cons_ne {α : Type} (k : String) (kv : String × α)
    (l : List (String × α)) (h : kv.1 ≠ k) :
    alookup k (kv :: l) = alookup k l := by
  simp [alookup, h]

theorem alookup_cons_self {α : Type} (k : String) (v : α)
    (l : List (String × α)) : alookup k ((k, v) :: l) = some v := by
  simp [alookup]

/-- Overriding the default assignments by a saved mapping whose keys are
exactly the default keys (in order, without duplicates) reproduces the
saved mapping. -/
theorem override_saved (ds : List (String × String)) :
    ∀ ns : List (String × String),
      ns.map Prod.fst = ds.map Prod.fst →
      (ds.map Prod.fst).Nodup →
      ds.map (fun kv => (kv.1, (alookup kv.1 ns).getD kv.2)) = ns := by
  induction ds with
  | nil =>
    intro ns h _
    cases ns with
    | nil => rfl
    | cons a l => simp at h
  | cons d ds ih =>
    intro ns h hnd
    cases ns with
    | nil => simp at h
    | cons a l =>
      simp only [List.map_cons, List.cons.injEq] at h
      obtain ⟨hk, hks⟩ := h
      simp only [List.map_cons, List.nodup_cons] at hnd
      obtain ⟨hd, hnd'⟩ := hnd
      simp only [List.map_cons, List.cons.injEq]
      constructor
      · have ha : a = (d.1, a.2) := Prod.ext_iff.mpr ⟨hk, rfl⟩
        have h2 : alookup d.1 (a :: l) = some a.2 := by
          rw [ha, alookup_cons_self]
        rw [h2]
        exact ha.symm
      · have hrw : ds.map (fun kv => (kv.1, (alookup kv.1 (a :: l)).getD kv.2))
            = ds.map (fun kv => (kv.1, (alookup kv.1 l).getD kv.2)) := by
          apply List.map_congr_left
          intro b hb
          have hb1 : b.1 ∈ ds.map Prod.fst := List.mem_map_of_mem Prod.fst hb
          have hne : a.1 ≠ b.1 := by
            rw [hk]
            intro hcon
            exact hd (hcon ▸ hb1)
          rw [alookup_cons_ne b.1 a l hne]
        rw [hrw]
        exact ih l hks hnd'

/-- Reloading an exported configuration record reproduces the exact
configuration, provided the name assignments are keyed by the document's
identifiers (as `mkConfig` and renaming guarantee). -/
theorem loadConfig_exportConfig (c : BeiweConfig)
    (h : keysMatch c = true) : loadConfig (exportConfig c) = c := by
  simp only [keysMatch, Bool.and_eq_true, decide_eq_true_eq] at h
  obtain ⟨hkeys, hnd⟩ := h
  rcases c with ⟨sp, raw, ⟨assigns⟩⟩
  show (⟨sp, raw, loadNames sp raw assigns⟩ : BeiweConfig)
      = ⟨sp, raw, ⟨assigns⟩⟩
  simp only [loadNames, BeiweConfig.mk.injEq, NameRegistry.mk.injEq,
    true_and]
  exact override_saved _ assigns hkeys hnd

theorem count_cons_ge (c x : String) (l : List String) :
    l.count c ≤ (x :: l).count c := by
  by_cases hcx : c = x
  · simp [hcx, List.count_cons_self]
  · simp [List.count_cons_of_ne hcx]

/-- A list of names with a duplicate always yields a first duplicated
name, and that name indeed occurs at least twice. -/
theorem firstDup_of_not_nodup :
    ∀ l : List String, ¬ l.Nodup →
      ∃ c, firstDup l = some c ∧ 2 ≤ l.count c := by
  intro l
  induction l with
  | nil => intro h; exact absurd List.nodup_nil h
  | cons x rest ih =>
    intro h
    by_cases hx : x ∈ rest
    · refine ⟨x, by simp [firstDup, hx], ?_⟩
      have h1 : 0 < rest.count x := List.count_pos_iff.mpr hx
      have h2 : (x :: rest).count x = rest.count x + 1 :=
        List.count_cons_self x rest
      omega
    · have hrest : ¬ rest.Nodup := fun hn =>
        h (List.nodup_cons.mpr ⟨hx, hn⟩)
      obtain ⟨c, hc1, hc2⟩ := ih hrest
      refine ⟨c, by simp [firstDup, hx, hc1], ?_⟩
      have := count_cons_ge c x rest
      omega

/-- Claim C2: for every Study (including one whose names were reassigned
after normalization), exporting it and loading the exported record yields
a Study that compares equal to the original under semantic equality (the
canonical projection ignores source format and raw-document artifacts),
and in fact reproduces the configuration with its name assignments; the
hypothesis says the name assignments are keyed by the document's own
identifiers, as holds for every configuration obtained by normalizing a
document and renaming objects. -/
theorem study_export_load_round_trip (c : BeiweConfig)
    (h : keysMatch c = true) :
    studyEq (loadConfig (exportConfig c)).study c.study = true ∧
      (loadConfig (exportConfig c)).names = c.names ∧
      loadConfig (exportConfig c) = c := by
  have he := loadConfig_exportConfig c h
  exact ⟨by rw [he]; exact studyEq_self _, by rw [he], he⟩

theorem study_export_load_round_trip_witness :
    keysMatch renamedConfig = true ∧
      (studyEq (loadConfig (exportConfig renamedConfig)).study
          renamedConfig.study = true ∧
        (loadConfig (exportConfig renamedConfig)).names
            = renamedConfig.names ∧
        loadConfig (exportConfig renamedConfig) = renamedConfig) :=
  ⟨by decide, study_export_load_round_trip renamedConfig (by decide)⟩

/-- Claim C3: normalizing the same logical survey encoded as a Legacy, a
CurrentV1, and a CurrentV2 document yields the same stable identifier in
all three Study instances (the three documents are indeed detected as
the three distinct formats), and when both a hex object identifier and
an internal numeric identifier are present the hex object identifier is
the one chosen. -/
theorem identifier_stability (sid : String) (ls : LogicalSurvey) :
    surveyIds (normalizeDoc (legacyStudyDoc sid ls)) = [ls.hexId] ∧
      surveyIds (normalizeDoc (v1StudyDoc sid ls)) = [ls.hexId] ∧
      surveyIds (normalizeDoc (v2StudyDoc sid ls)) = [ls.hexId] ∧
      detectFormat (legacyStudyDoc sid ls) = .legacy ∧
      detectFormat (v1StudyDoc sid ls) = .v1 ∧
      detectFormat (v2StudyDoc sid ls) = .v2 ∧
      (currentSurveyDoc ls).internalId.isSome = true ∧
      (currentSurveyDoc ls).objectId = some ls.hexId ∧
      surveyIdOf (currentSurveyDoc ls) = ls.hexId := by
  refine ⟨rfl, rfl, rfl, rfl, rfl, rfl, rfl, rfl, rfl⟩

/-- Claim C6: an update whose application would produce a duplicate
display name fails with a NameCollision carrying a specific name that
indeed occurs at least twice among the proposed names, and the caller's
registry is unchanged after the failed call (all-or-nothing). -/
theorem name_collision_all_or_nothing (r : NameRegistry)
    (m : List (String × String))
    (h : ¬ ((proposedAssignments r m).map Prod.snd).Nodup) :
    ∃ c, r.update m = .error c ∧
      2 ≤ ((proposedAssignments r m).map Prod.snd).count c ∧
      applyUpdate r m = r := by
  obtain ⟨c, hc1, hc2⟩ := firstDup_of_not_nodup _ h
  refine ⟨c, ?_, hc2, ?_⟩
  · simp [NameRegistry.update, hc1]
  · simp [applyUpdate, NameRegistry.update, hc1]

theorem name_collision_all_or_nothing_witness :
    (¬ ((proposedAssignments collidingRegistry collidingUpdate).map
        Prod.snd).Nodup) ∧
    (∃ c, collidingRegistry.update collidingUpdate = .error c ∧
      2 ≤ ((proposedAssignments collidingRegistry collidingUpdate).map
            Prod.snd).count c ∧
      applyUpdate collidingRegistry collidingUpdate = collidingRegistry) :=
  ⟨by decide,
   name_collision_all_or_nothing collidingRegistry collidingUpdate
     (by decide)⟩

theorem questionAssignments_keys (i : Nat) :
    ∀ (j : Nat) (qs : List QuestionDoc),
      (questionAssignments i j qs).map Prod.fst
        = qs.map QuestionDoc.qId := by
  intro j qs
  induction qs generalizing j with
  | nil => rfl
  | cons q qs ih => simp [questionAssignments, ih]

theorem surveysAssignments_keys :
    ∀ (i : Nat) (ss : List SurveyDoc),
      (surveysAssignments i ss).map Prod.fst = surveysObjectIds ss := by
  intro i ss
  induction ss generalizing i with
  | nil => rfl
  | cons s ss ih =>
    simp [surveysAssignments, surveysObjectIds, surveyAssignments,
      questionAssignments_keys, ih]

/-- Claim C10: for every normalized configuration, the study object
itself receives the first entry of the name-assignment mapping, keyed by
the study's stable identifier and preceding every survey and question
entry, and its default display name is the base name of the source
configuration file (not a survey-counter-generated name). -/
theorem study_default_name_entry (path : String) (doc : StudyDoc) :
    (mkConfig path doc).names.assignments.head?
        = some (studyIdOf doc, baseName path) ∧
      (mkConfig path doc).names.assignments.tail.map Prod.fst
        = objectIds doc := by
  refine ⟨rfl, ?_⟩
  show (surveysAssignments 0 doc.surveys).map Prod.fst
      = surveysObjectIds doc.surveys
  exact surveysAssignments_keys 0 doc.surveys

/-- Claim C5: attaching the same configuration mapping twice leaves the
project in the same state as attaching it once: the attached
configurations, assignments and display names are re-derived from the
mapping and the (unchanged) registry facts alone. -/
theorem update_configurations_idempotent (env : ConfigEnv)
    (cs : ConfigSpec) (P : ProjectRegistry) :
    updateConfigurations env cs (updateConfigurations env cs P)
      = updateConfigurations env cs P := rfl

/-- Claim C9: attaching a configuration rewrites only display names and
attachment state, never identifiers or registry facts: every per-user
registry (file inventory, device records, irregular directories,
unregistered files) and its scan-derived flags, as well as the project's
scanned user and flag sets, are structurally identical before and after
attachment. -/
theorem attach_preserves_registries (env : ConfigEnv) (cs : ConfigSpec)
    (P : ProjectRegistry) (u : String) :
    userRegistry (updateConfigurations env cs P) u = userRegistry P u ∧
      userFlags (userRegistry (updateConfigurations env cs P) u)
        = userFlags (userRegistry P u) ∧
      (updateConfigurations env cs P).users = P.users ∧
      (updateConfigurations env cs P).devices = P.devices ∧
      (updateConfigurations env cs P).obs = P.obs ∧
      (updateConfigurations env cs P).irregular = P.irregular ∧
      (updateConfigurations env cs P).unregistered = P.unregistered ∧
      (updateConfigurations env cs P).ignoredUsers = P.ignoredUsers ∧
      (updateConfigurations env cs P).noRegistry = P.noRegistry :=
  ⟨rfl, rfl, rfl, rfl, rfl, rfl, rfl, rfl, rfl⟩

/-- Claim C8: when the pooled default names of the attached
configurations collide, attachment sets the `unnamed_objects` flag,
declines name-based display (no object names are assigned), and every
identifier is labeled by the stable identifier itself rather than a
colliding name. -/
theorem unnamed_objects_fallback (env : ConfigEnv) (cs : ConfigSpec)
    (P : ProjectRegistry)
    (h : ¬ ((pooledAssignments
        (loadConfigsAt env
          (distinctPaths (resolveAssign cs P)))).map Prod.snd).Nodup) :
    (updateConfigurations env cs P).unnamedObjects = true ∧
      (updateConfigurations env cs P).objectNames = [] ∧
      ∀ i, displayLabel (updateConfigurations env cs P) i = i := by
  have h1 : (updateConfigurations env cs P).objectNames = [] := by
    simp only [updateConfigurations]
    exact if_neg h
  refine ⟨?_, h1, ?_⟩
  · simp only [updateConfigurations]
    exact if_neg h
  · intro i
    simp [displayLabel, h1, alookup]

theorem unnamed_objects_fallback_witness :
    (updateConfigurations collideEnv collideSpec emptyProj).unnamedObjects
        = true ∧
      (updateConfigurations collideEnv collideSpec emptyProj).objectNames
        = [] ∧
      displayLabel (updateConfigurations collideEnv collideSpec emptyProj)
        "svA" = "svA" := by
  have h := unnamed_objects_fallback collideEnv collideSpec emptyProj
    (by decide)
  exact ⟨h.1, h.2.1, h.2.2 "svA"⟩

theorem zip_all_self (l : List (String × BeiweConfig)) :
    ((l.zip l).all
      (fun pq => studyEq pq.1.2.study pq.2.2.study
        && decide (pq.1.2.names = pq.2.2.names))) = true := by
  induction l with
  | nil => rfl
  | cons c l ih =>
    simp only [List.zip_cons_cons, List.all_cons, ih, Bool.and_true]
    simp [studyEq_self]

/-- Project equality is reflexive. -/
theorem projEq_self (P : ProjectRegistry) : projEq P P = true := by
  simp [projEq, zip_all_self]

/-- Claim C1: exporting a ProjectRegistry and loading the exported
record reproduces the project: every per-user registry and every
attached configuration (Study and name assignments) compares equal, so
`projEq` holds; the hypothesis says each attached configuration's names
are keyed by its document's identifiers, as attachment guarantees. -/
theorem project_export_load_round_trip (P : ProjectRegistry)
    (h : projWF P = true) :
    loadProject (exportProject P) = P ∧
      projEq (loadProject (exportProject P)) P = true := by
  simp only [projWF, List.all_eq_true] at h
  have hcfg : (P.configurations.map
      (fun pc => (pc.1, exportConfig pc.2))).map
        (fun pr => (pr.1, loadConfig pr.2)) = P.configurations := by
    rw [List.map_map]
    have h2 : ∀ pc ∈ P.configurations,
        ((fun pr : String × ConfigRecord => (pr.1, loadConfig pr.2)) ∘
          (fun pc : String × BeiweConfig => (pc.1, exportConfig pc.2))) pc
          = id pc := by
      intro pc hpc
      have hk : keysMatch pc.2 = true := h pc hpc
      simp only [Function.comp_apply, id_eq]
      exact Prod.ext_iff.mpr ⟨rfl, loadConfig_exportConfig pc.2 hk⟩
    rw [List.map_congr_left h2, List.map_id]
  have hL : loadProject (exportProject P) = P := by
    simp [loadProject, exportProject, Finset.val_toFinset, hcfg]
  exact ⟨hL, by rw [hL]; exact projEq_self P⟩

theorem project_export_load_round_trip_witness :
    projWF wProject = true ∧
      (loadProject (exportProject wProject) = wProject ∧
        projEq (loadProject (exportProject wProject)) wProject = true) :=
  ⟨by decide, project_export_load_round_trip wProject (by decide)⟩

theorem plainCfg_emptyProj : plainCfg emptyProj :=
  ⟨rfl, rfl, rfl, rfl⟩

theorem plainCfg_mergeProj {a b : ProjectRegistry} (ha : plainCfg a)
    (hb : plainCfg b) : plainCfg (mergeProj a b) := by
  obtain ⟨ha1, ha2, ha3, ha4⟩ := ha
  obtain ⟨hb1, hb2, hb3, hb4⟩ := hb
  exact ⟨by simp [mergeProj, ha1, hb1], by simp [mergeProj, ha2, hb2],
    by simp [mergeProj, ha3, hb3], by simp [mergeProj, ha4, hb4]⟩

theorem plainCfg_foldr (l : List ProjectRegistry)
    (h : ∀ x ∈ l, plainCfg x) :
    plainCfg (l.foldr mergeProj emptyProj) := by
  induction l with
  | nil => exact plainCfg_emptyProj
  | cons a l ih =>
    exact plainCfg_mergeProj (h a (by simp))
      (ih (fun x hx => h x (by simp [hx])))

theorem plainCfg_scanFile (u s : String) (f : FileEntry) :
    plainCfg (scanFile u s f) := by
  unfold scanFile
  cases parseHourBucket f.name with
  | none => exact ⟨rfl, rfl, rfl, rfl⟩
  | some b => exact ⟨rfl, rfl, rfl, rfl⟩

theorem plainCfg_scanStreamDir (u : String) (sd : StreamDir) :
    plainCfg (scanStreamDir u sd) := by
  unfold scanStreamDir
  split
  · exact plainCfg_foldr _ (by
      intro x hx
      simp only [List.mem_map] at hx
      obtain ⟨f, _, hf⟩ := hx
      exact hf ▸ plainCfg_scanFile u sd.dirName f)
  · exact ⟨rfl, rfl, rfl, rfl⟩

theorem plainCfg_scanUserDir (d : UserDir) :
    plainCfg (scanUserDir d) := by
  unfold scanUserDir
  refine plainCfg_mergeProj ⟨rfl, rfl, rfl, rfl⟩ ?_
  refine plainCfg_foldr _ ?_
  intro x hx
  simp only [List.mem_map] at hx
  obtain ⟨sd, _, hsd⟩ := hx
  exact hsd ▸ plainCfg_scanStreamDir d.userId sd

theorem plainCfg_scanRoot (sel : Option (List String)) (root : RawRoot) :
    plainCfg (scanRoot sel root) := by
  unfold scanRoot
  refine plainCfg_foldr _ ?_
  intro x hx
  simp only [List.mem_map] at hx
  obtain ⟨d, _, hd⟩ := hx
  subst hd
  split
  · exact plainCfg_scanUserDir d
  · exact ⟨rfl, rfl, rfl, rfl⟩

/-- Merging the scans of two roots is order-insensitive. -/
theorem scan_two_comm (sel : Option (List String)) (A B : RawRoot) :
    ([A, B].map (scanRoot sel)).foldr mergeProj emptyProj
      = ([B, A].map (scanRoot sel)).foldr mergeProj emptyProj := by
  obtain ⟨ha1, ha2, ha3, ha4⟩ := plainCfg_scanRoot sel A
  obtain ⟨hb1, hb2, hb3, hb4⟩ := plainCfg_scanRoot sel B
  simp only [List.map_cons, List.map_nil, List.foldr_cons, List.foldr_nil]
  simp [mergeProj, emptyProj, ha1, ha2, ha3, ha4, hb1, hb2, hb3, hb4,
    Finset.union_comm]

/-- Claim C4: building a project from roots `[A, B]` yields the same
state as building from `[B, A]`, and merging per-user registries is
commutative (for the same user identifier) and associative, so root
processing order never affects the final state. -/
theorem project_merge_commutative :
    (∀ (env : ConfigEnv) (A B : RawRoot) (sel : Option (List String))
        (cs : ConfigSpec),
      createProject env [A, B] sel cs = createProject env [B, A] sel cs) ∧
    (∀ a b : UserRegistry, a.userId = b.userId →
      mergeUser a b = mergeUser b a) ∧
    (∀ a b c : UserRegistry,
      mergeUser (mergeUser a b) c = mergeUser a (mergeUser b c)) := by
  refine ⟨?_, ?_, ?_⟩
  · intro env A B sel cs
    unfold createProject
    rw [scan_two_comm]
  · intro a b h
    simp [mergeUser, h, Finset.union_comm]
  · intro a b c
    simp [mergeUser, Finset.union_assoc]

theorem project_merge_commutative_witness :
    mergeUser wRegA wRegB = mergeUser wRegB wRegA ∧
      createProject wEnv [wRoot, wRootB] none (.perUser [])
        = createProject wEnv [wRootB, wRoot] none (.perUser []) :=
  ⟨project_merge_commutative.2.1 wRegA wRegB rfl,
   project_merge_commutative.1 wEnv wRoot wRootB none (.perUser [])⟩

theorem scanFile_obs_some (u s : String) (f : FileEntry) (T : String)
    (h : parseHourBucket f.name = some T) :
    (scanFile u s f).obs = {(u, (⟨s, T, f.bytes⟩ : Obs))} := by
  unfold scanFile
  rw [h]

theorem accRoot_obs (u f T : String) (n : Nat)
    (h : parseHourBucket f = some T) :
    (scanRoot none (accRoot u f n)).obs
      = {(u, (⟨"accelerometer", T, n⟩ : Obs))} := by
  show (∅ ∪ (((scanFile u "accelerometer" ⟨f, n, none⟩).obs ∪ ∅) ∪ ∅)) ∪ ∅
      = {(u, (⟨"accelerometer", T, n⟩ : Obs))}
  rw [scanFile_obs_some u "accelerometer" ⟨f, n, none⟩ T h]
  simp

theorem create_two_obs (env : ConfigEnv) (cs : ConfigSpec)
    (A B : RawRoot) :
    (createProject env [A, B] none cs).obs
      = (scanRoot none A).obs ∪ ((scanRoot none B).obs ∪ ∅) := rfl

/-- Claim C7: when two raw roots both contain data for the same user,
stream and hour bucket with differing byte sizes, the merged project
flags exactly one MergeConflict for that (user, stream, hour-bucket)
triple and retains both observed sizes rather than a single resolved
value; when the two observations are identical they are de-duplicated
and no conflict is flagged. -/
theorem merge_conflict_flagging (env : ConfigEnv) (cs : ConfigSpec)
    (u f T : String) (n m : Nat)
    (hf : parseHourBucket f = some T) (hnm : n ≠ m) :
    sizesAt (createProject env [accRoot u f n, accRoot u f m] none cs)
        u "accelerometer" T = {n, m} ∧
      mergeConflicts
          (createProject env [accRoot u f n, accRoot u f m] none cs)
        = {(u, "accelerometer", T)} ∧
      sizesAt (createProject env [accRoot u f n, accRoot u f n] none cs)
        u "accelerometer" T = {n} ∧
      mergeConflicts
          (createProject env [accRoot u f n, accRoot u f n] none cs)
        = ∅ := by
  have hobs : (createProject env [accRoot u f n, accRoot u f m]
      none cs).obs
      = insert (u, (⟨"accelerometer", T, n⟩ : Obs))
          {(u, (⟨"accelerometer", T, m⟩ : Obs))} := by
    rw [create_two_obs, accRoot_obs u f T n hf, accRoot_obs u f T m hf,
      Finset.union_empty, Finset.insert_eq]
  have hobs1 : (createProject env [accRoot u f n, accRoot u f n]
      none cs).obs
      = {(u, (⟨"accelerometer", T, n⟩ : Obs))} := by
    rw [create_two_obs, accRoot_obs u f T n hf]
    simp
  have hsizes : sizesAt
      (createProject env [accRoot u f n, accRoot u f m] none cs)
      u "accelerometer" T = {n, m} := by
    rw [sizesAt, hobs]
    rw [Finset.filter_insert, if_pos ⟨rfl, rfl, rfl⟩,
      Finset.filter_singleton, if_pos ⟨rfl, rfl, rfl⟩,
      Finset.image_insert, Finset.image_singleton]
  have hsizes1 : sizesAt
      (createProject env [accRoot u f n, accRoot u f n] none cs)
      u "accelerometer" T = {n} := by
    rw [sizesAt, hobs1]
    rw [Finset.filter_singleton, if_pos ⟨rfl, rfl, rfl⟩,
      Finset.image_singleton]
  have hcard : (sizesAt
      (createProject env [accRoot u f n, accRoot u f m] none cs)
      u "accelerometer" T).card = 2 := by
    rw [hsizes]
    rw [Finset.card_insert_of_not_mem (by simp [hnm]),
      Finset.card_singleton]
  refine ⟨hsizes, ?_, hsizes1, ?_⟩
  · rw [mergeConflicts, hobs]
    rw [Finset.image_insert, Finset.image_singleton]
    rw [Finset.insert_eq_self.mpr (Finset.mem_singleton_self _)]
    rw [Finset.filter_singleton, if_pos (by rw [hcard])]
  · rw [mergeConflicts, hobs1]
    rw [Finset.image_singleton, Finset.filter_singleton,
      if_neg (by rw [hsizes1]; simp)]

theorem merge_conflict_flagging_witness :
    sizesAt (createProject (fun _ => none)
        [accRoot "U" "2016-06-07 18_00_00.csv" 100,
         accRoot "U" "2016-06-07 18_00_00.csv" 150] none (.perUser []))
      "U" "accelerometer" "2016-06-07 18_00_00" = {100, 150} ∧
    mergeConflicts (createProject (fun _ => none)
        [accRoot "U" "2016-06-07 18_00_00.csv" 100,
         accRoot "U" "2016-06-07 18_00_00.csv" 150] none (.perUser []))
      = {("U", "accelerometer", "2016-06-07 18_00_00")} ∧
    sizesAt (createProject (fun _ => none)
        [accRoot "U" "2016-06-07 18_00_00.csv" 100,
         accRoot "U" "2016-06-07 18_00_00.csv" 100] none (.perUser []))
      "U" "accelerometer" "2016-06-07 18_00_00" = {100} ∧
    mergeConflicts (createProject (fun _ => none)
        [accRoot "U" "2016-06-07 18_00_00.csv" 100,
         accRoot "U" "2016-06-07 18_00_00.csv" 100] none (.perUser []))
      = ∅ :=
  merge_conflict_flagging (fun _ => none) (.perUser [])
    "U" "2016-06-07 18_00_00.csv" "2016-06-07 18_00_00" 100 150
    (by decide) (by decide)
